import Mathlib

/-!
Shallow embedding of the `fast_api_ai` book-catalog service
(`src/main.py`, `src/models.py`, `src/llama3_model.py`).

Conventions of the embedding:
* Database state is a `DB` record of lists of rows; endpoint handlers are
  pure functions `DB → … → DB × Except HttpError α`.  Raising an
  `HTTPException` before `db.commit()` leaves the database unchanged, so an
  error result is always paired with the incoming `DB`.
* Time is measured in minutes (`datetime.utcnow()` becomes a `Nat`).
* A JWT is either a payload signed under some secret (an idealized MAC:
  verification succeeds exactly when the signing secret equals the server
  secret) or a malformed blob; `jose.jwt.decode` also rejects expired
  tokens with a `JWTError`, which the embedding folds into decode failure.
* bcrypt hashing is modelled by an injective tagging function; only the
  relationship `verify_password p (get_password_hash p) = true` and the
  fact that the stored value is not the plaintext matter to the claims.
* Incoming JSON numbers are modelled as `ℚ` so that Python `int(value)`
  truncation and pydantic integer coercion are both expressible.
-/

deriving instance DecidableEq for Except

namespace BookAPI

/-- An HTTP error as raised by `fastapi.HTTPException`: a status code and a
detail message. -/
structure HttpError where
  status : Nat
  detail : String
deriving DecidableEq, Repr

/-- `models.Genre`: the closed enumeration of book genres. -/
inductive Genre
  | Adventure | Classic | Crime | Drama | Fantasy | Historical_Fiction
  | Horror | Literary_Fiction | Mystery | History | Science_Fiction
  | Thriller | Western | Dystopian | Magical_Realism | Satire
  | Biography | Autobiography | Self_Help | Poetry
deriving DecidableEq, Repr

/-- `models.Role`: the closed enumeration of user roles. -/
inductive Role
  | USER
  | ADMIN
deriving DecidableEq, Repr

/-- A row of the `users` table (`models.User`): `password` holds the stored
bcrypt hash, never the plaintext. -/
structure User where
  id : Nat
  username : String
  email : String
  password : String
  interested_genre : Genre
  role : Role
deriving DecidableEq, Repr

/-- A row of the `books` table (`models.Book`). -/
structure Book where
  id : Nat
  title : String
  author : String
  genre : Genre
  year_published : Int
  summary : String
deriving DecidableEq, Repr

/-- A row of the `reviews` table (`models.Review`). -/
structure Review where
  id : Nat
  book_id : Nat
  user_id : Nat
  review_text : String
  rating : Int
deriving DecidableEq, Repr

/-- The whole persistent store. -/
structure DB where
  users : List User
  books : List Book
  reviews : List Review
deriving DecidableEq, Repr

/-! ### Password hashing (`get_password_hash` / `verify_password`)

`pwd_context = CryptContext(schemes=["bcrypt"])`.  The embedding keeps only
what the claims use: hashing is deterministic, injective, and the digest is
distinguishable from the plaintext. -/

/-- Model of `get_password_hash`: tags the password so the stored value is a
digest, not the plaintext. -/
def get_password_hash (password : String) : String :=
  "bcrypt$" ++ password

/-- Model of `verify_password`: succeeds exactly when the plaintext hashes to
the stored digest. -/
def verify_password (plain_password hashed_password : String) : Bool :=
  get_password_hash plain_password == hashed_password

/-! ### Token service (`create_access_token`, `jwt.decode`) -/

/-- The claims dictionary passed to `create_access_token` by `login`:
`data = \x7b"user_id": user.id, "sub": user.username\x7d`.  Either claim may be
absent in a foreign token, hence `Option`. -/
structure TokenData where
  user_id : Option Nat
  sub : Option String
deriving DecidableEq, Repr

/-- A decoded JWT payload: the claims plus the `exp` claim added by
`create_access_token` (absolute expiry, in minutes). -/
structure TokenPayload where
  user_id : Option Nat
  sub : Option String
  exp : Nat
deriving DecidableEq, Repr

/-- A wire-format token: either a payload signed under some secret, or a blob
that does not parse as a JWT at all. -/
inductive Token
  | signed (payload : TokenPayload) (macSecret : String)
  | malformed (raw : String)
deriving DecidableEq, Repr

/-- `ACCESS_TOKEN_EXPIRE_MINUTES = 30` (main.py line 24). -/
def ACCESS_TOKEN_EXPIRE_MINUTES : Nat := 30

/-- `create_access_token(data, expires_delta=None)` (main.py lines 134-141).
`if expires_delta:` is Python truthiness, so a zero `timedelta` also falls
through to the default branch `datetime.utcnow() + timedelta(minutes=15)`. -/
def create_access_token (secret : String) (now : Nat) (data : TokenData)
    (expires_delta : Option Nat) : Token :=
  let expire : Nat :=
    match expires_delta with
    | some d => if d = 0 then now + 15 else now + d
    | none => now + 15
  Token.signed ⟨data.user_id, data.sub, expire⟩ secret

/-- `jose.jwt.decode(token, SECRET_KEY, algorithms=[ALGORITHM])`: fails with a
`JWTError` when the token is malformed, the signature does not verify under
the server secret, or the `exp` claim lies in the past. -/
def jwt_decode (secret : String) (now : Nat) : Token → Except Unit TokenPayload
  | Token.signed p mac =>
      if mac = secret then
        if p.exp < now then Except.error () else Except.ok p
      else Except.error ()
  | Token.malformed _ => Except.error ()

/-! ### Access-control guards (`get_current_user`, `require_admin`) -/

/-- The 401 raised throughout `get_current_user` (main.py lines 98-102). -/
def credentials_exception : HttpError :=
  ⟨401, "Could not validate credentials"⟩

/-- `get_current_user` (main.py lines 97-119): decode the JWT, read the
`user_id` claim, and look the user up live in the database; every failure is
the same 401 `credentials_exception`. -/
def get_current_user (secret : String) (now : Nat) (db : DB) (token : Token) :
    Except HttpError User :=
  match jwt_decode secret now token with
  | Except.error _ => Except.error credentials_exception
  | Except.ok payload =>
    match payload.user_id with
    | none => Except.error credentials_exception
    | some uid =>
      match db.users.find? (fun u => u.id == uid) with
      | none => Except.error credentials_exception
      | some u => Except.ok u

/-- `require_admin` (main.py lines 122-124): depends on `get_current_user`,
so identity resolution runs first; only a resolved non-admin user yields the
403. -/
def require_admin (secret : String) (now : Nat) (db : DB) (token : Token) :
    Except HttpError Unit :=
  match get_current_user secret now db token with
  | Except.error e => Except.error e
  | Except.ok u =>
      if u.role ≠ Role.ADMIN then
        Except.error ⟨403, "Admin access is required"⟩
      else
        Except.ok ()

/-! ### Rating validation (`models.Review.validate_rating`,
`ReviewCreateSchema`) -/

/-- Python `int(q)` on a number: truncation toward zero, computed on the
reduced numerator and denominator (`ceil q = -floor (-q)` for the negative
case). -/
def pyInt (q : ℚ) : Int :=
  if 0 ≤ q.num then Int.fdiv q.num q.den else -(Int.fdiv (-q.num) q.den)

/-- Python `isinstance(value, int)` after `value = int(value)`: always true,
kept so the dead branch of `validate_rating` stays visible. -/
def isinstance_int (_ : Int) : Bool :=
  true

/-- `Review.validate_rating` (models.py lines 90-101): first coerces with
`value = int(value)` (truncating any fractional part), then the
`isinstance` check (dead after the coercion), then the range check. -/
def validate_rating (q : ℚ) : Except HttpError Int :=
  let value : Int := pyInt q
  if isinstance_int value = false then
    Except.error ⟨400, "Rating must be an integer"⟩
  else if value < 1 ∨ 5 < value then
    Except.error ⟨400, "Rating must be between 1 and 5"⟩
  else
    Except.ok value

/-- pydantic coercion for `rating: int` in `ReviewCreateSchema` (main.py
lines 78-80): an incoming JSON number must have no fractional part, else the
request is rejected with a 422 validation error before the handler runs. -/
def pydantic_int (q : ℚ) : Except HttpError Int :=
  if q.den = 1 then Except.ok q.num
  else Except.error ⟨422, "Input should be a valid integer"⟩

/-- The full rating pipeline for a review submission: pydantic schema
coercion (`ReviewCreateSchema.rating : int`) followed by the ORM validator
`validate_rating` fired when the `Review` row is constructed. -/
def submit_rating (q : ℚ) : Except HttpError Int :=
  match pydantic_int q with
  | Except.error e => Except.error e
  | Except.ok n => validate_rating (n : ℚ)

/-- The body of a `POST /books/\x7bid\x7d/reviews` request after pydantic
validation (`ReviewCreateSchema`, main.py lines 78-80). -/
structure ReviewCreateSchema where
  review_text : String
  rating : Int
deriving DecidableEq, Repr

/-! ### Review endpoints (`add_review`, `get_book_summary`) -/

/-- `add_review` (main.py lines 425-475): 404 when the book is missing, 400
when the current user already reviewed it, then the `Review` constructor
fires `validate_rating`; only after all checks does the insert commit.
`newId` stands for the autoincrement primary key. -/
def add_review (db : DB) (current_user : User) (id : Nat)
    (review : ReviewCreateSchema) (newId : Nat) :
    DB × Except HttpError Review :=
  match db.books.find? (fun b => b.id == id) with
  | none => (db, Except.error ⟨404, "Book not found"⟩)
  | some _ =>
    match db.reviews.find?
        (fun r => r.book_id == id && r.user_id == current_user.id) with
    | some _ => (db, Except.error ⟨400, "You can only rate a book once."⟩)
    | none =>
      match validate_rating (review.rating : ℚ) with
      | Except.error e => (db, Except.error e)
      | Except.ok v =>
        let new_review : Review :=
          ⟨newId, id, current_user.id, review.review_text, v⟩
        ({ db with reviews := db.reviews ++ [new_review] },
          Except.ok new_review)

/-- Python `round(a / b)` to 0 digits for `b > 0`, half to even, computed
exactly on the fraction `a / b`: with `f = ⌊a / b⌋` and remainder `r`, the
fractional part compares to `1 / 2` as `2 * r` compares to `b`. -/
def roundHalfEven (a b : Int) : Int :=
  let f := Int.fdiv a b
  let r := a - f * b
  if 2 * r < b then f
  else if b < 2 * r then f + 1
  else if f % 2 = 0 then f else f + 1

/-- The `average_rating` field of the `get_book_summary` response: either a
number carried exactly in hundredths (`num h` denotes the decimal
`h / 100`, the result of Python `round(x, 2)`), or the string sentinel
`"NA"`. -/
inductive AvgRating
  | num (hundredths : Int)
  | NA
deriving DecidableEq, Repr

/-- Python `round(total / count, 2)` as an exact count of hundredths:
round half to even applied to `100 * total / count`. -/
def pyRound2 (total : Int) (count : Nat) : Int :=
  roundHalfEven (100 * total) count

/-- `get_book_summary` (main.py lines 505-549): 404 when the book is
missing; otherwise the mean of the ratings of the reviews of the book rounded to two
decimal places, or the `"NA"` sentinel when the book has no reviews. -/
def get_book_summary (db : DB) (book_id : Nat) :
    Except HttpError (String × AvgRating) :=
  match db.books.find? (fun b => b.id == book_id) with
  | none => Except.error ⟨404, "Book not found"⟩
  | some book =>
    let reviews := db.reviews.filter (fun r => r.book_id == book_id)
    if reviews.isEmpty then
      Except.ok (book.summary, AvgRating.NA)
    else
      Except.ok (book.summary,
        AvgRating.num
          (pyRound2 (reviews.map (fun r => r.rating)).sum reviews.length))

/-! ### User endpoints (`create_user`, `login`) -/

/-- The registration request body (`UserCreate`, main.py lines 31-39): the
role is a required, client-supplied field with no restriction. -/
structure UserCreate where
  username : String
  password : String
  email : String
  interested_genre : Genre
  role : Role
deriving DecidableEq, Repr

/-- The response model of registration and who-am-I (`UserSchema`, main.py
lines 43-51): note there is no password field, so FastAPI serializes only
these five attributes of the ORM row. -/
structure UserSchema where
  id : Nat
  username : String
  email : String
  interested_genre : Genre
  role : Role
deriving DecidableEq, Repr

/-- FastAPI serialization of a `User` row through `response_model=UserSchema`. -/
def toUserSchema (u : User) : UserSchema :=
  ⟨u.id, u.username, u.email, u.interested_genre, u.role⟩

/-- `create_user` (main.py lines 144-185): 400 when the username or email is
taken, otherwise hash the password, insert, and return the row serialized
through `UserSchema`.  The route declares no `status_code`, so FastAPI
responds with its default 200 on success; the returned `Nat` is that HTTP
status.  `newId` stands for the autoincrement primary key. -/
def create_user (db : DB) (user : UserCreate) (newId : Nat) :
    DB × Except HttpError (Nat × UserSchema) :=
  if db.users.any (fun u => u.username == user.username || u.email == user.email) then
    (db, Except.error ⟨400, "Username or email already registered"⟩)
  else
    let new_user : User :=
      ⟨newId, user.username, user.email, get_password_hash user.password,
        user.interested_genre, user.role⟩
    ({ db with users := db.users ++ [new_user] },
      Except.ok (200, toUserSchema new_user))

/-- `login` (main.py lines 189-221): 400 on unknown username or wrong
password, otherwise mint a token with
`expires_delta=timedelta(minutes=ACCESS_TOKEN_EXPIRE_MINUTES)`. -/
def login (secret : String) (now : Nat) (db : DB)
    (username password : String) : Except HttpError Token :=
  match db.users.find? (fun u => u.username == username) with
  | none => Except.error ⟨400, "Incorrect username or password"⟩
  | some user =>
    if verify_password password user.password then
      Except.ok (create_access_token secret now
        ⟨some user.id, some user.username⟩ (some ACCESS_TOKEN_EXPIRE_MINUTES))
    else
      Except.error ⟨400, "Incorrect username or password"⟩

/-! ### Book update (`update_book`, `BookCreateSchema`) -/

/-- The raw JSON body of a book create/update request before pydantic
defaults are applied: `summary` may be omitted. -/
structure BookCreateRequest where
  title : String
  author : String
  genre : Genre
  year_published : Int
  summary : Option String
deriving DecidableEq, Repr

/-- The body after pydantic validation (`BookCreateSchema`, main.py lines
62-70): the `summary` field is declared optional with the empty string as
its `Field` default, which fills an omitted
summary with the empty string. -/
structure BookCreateSchema where
  title : String
  author : String
  genre : Genre
  year_published : Int
  summary : String
deriving DecidableEq, Repr

/-- pydantic parsing of a book request body: apply the default for an
omitted `summary`. -/
def parseBookCreate (r : BookCreateRequest) : BookCreateSchema :=
  ⟨r.title, r.author, r.genre, r.year_published, r.summary.getD ""⟩

/-- `update_book` (main.py lines 304-342): 404 when the book is missing,
otherwise `setattr` every field of `book.model_dump()` (title, author,
genre, year_published, summary) onto the row fetched under the path id,
then commit. -/
def update_book (db : DB) (id : Nat) (book : BookCreateSchema) :
    DB × Except HttpError Book :=
  match db.books.find? (fun b => b.id == id) with
  | none => (db, Except.error ⟨404, "Book not found"⟩)
  | some _ =>
    let updated : Book :=
      ⟨id, book.title, book.author, book.genre, book.year_published,
        book.summary⟩
    ({ db with books := db.books.map (fun b => if b.id == id then updated else b) },
      Except.ok updated)

/-! ### Summary generation (`generate_summary`, `generate_book_summary`) -/

/-- `"NONE" in result.content`: Python substring membership, the check
`generate_book_summary` applies to the gateway response
(llama3_model.py lines 41-42). -/
def containsNONE (s : String) : Bool :=
  decide ("NONE".toList <:+: s.toList)

/-- `generate_summary` (main.py lines 552-593) with the auth dependencies
`[Depends(get_current_user), Depends(require_admin)]` and the gateway call
inlined as its response text `gatewayResp` (the too-short sentinel being
`"NONE"` somewhere in the content, llama3_model.py lines 28-44).  Order:
auth, then the 404 lookup, then the sentinel check raising 400, and only
then is `book.summary` assigned and committed. -/
def generate_summary (secret : String) (now : Nat) (db : DB) (token : Token)
    (id : Nat) (gatewayResp : String) : DB × Except HttpError String :=
  match require_admin secret now db token with
  | Except.error e => (db, Except.error e)
  | Except.ok _ =>
    match db.books.find? (fun b => b.id == id) with
    | none => (db, Except.error ⟨404, "Book not found"⟩)
    | some _ =>
      if containsNONE gatewayResp then
        (db, Except.error
          ⟨400, "Please provide enough book content to generate a summary."⟩)
      else
        let updatedBooks := db.books.map
          (fun b => if b.id == id then { b with summary := gatewayResp } else b)
        ({ db with books := updatedBooks }, Except.ok gatewayResp)

/-! ### Recommendations (`recommend_books`, llama3_model.py lines 58-73)

The handler first collapses every whitespace run of the response text to a
single space with `re.sub`, then splits on the semicolon delimiter and
strips each piece, returning every piece. -/

/-- Python regex `\s` / `str.strip` whitespace class. -/
def isPySpace (c : Char) : Bool :=
  c == ' ' || c == '\t' || c == '\n' || c == '\r' || c == '\x0b' || c == '\x0c'

/-- The `re.sub` whitespace normalization on the character list: every maximal run of
whitespace becomes a single space. -/
def collapseWS : List Char → List Char
  | [] => []
  | [c] => [if isPySpace c then ' ' else c]
  | c1 :: c2 :: rest =>
    if isPySpace c1 && isPySpace c2 then collapseWS (c2 :: rest)
    else (if isPySpace c1 then ' ' else c1) :: collapseWS (c2 :: rest)

/-- Python `str.split` on the semicolon: split at every separator, keeping empty pieces
(so `n` separators always yield `n + 1` pieces). -/
def splitSemis : List Char → List (List Char)
  | [] => [[]]
  | c :: rest =>
    if c == ';' then [] :: splitSemis rest
    else
      match splitSemis rest with
      | [] => [[c]]
      | piece :: pieces => (c :: piece) :: pieces

/-- Python `s.strip()`: drop leading and trailing whitespace. -/
def pyStrip (l : List Char) : List Char :=
  List.rdropWhile isPySpace (l.dropWhile isPySpace)

/-- `recommend_books` applied to the gateway response text `content`
(llama3_model.py lines 58-73): whitespace-normalize, split on the
delimiter, strip each piece; nothing is filtered out. -/
def recommend_books (content : String) : List String :=
  ((splitSemis (collapseWS content.toList)).map pyStrip).map List.asString

/-! ### Storage layer for reviews (`models.Review`, models.py lines 79-101)

The `reviews` table declares: `id` primary key, `book_id` `ForeignKey`
`NOT NULL`, `user_id` `NOT NULL`, `review_text` nullable, `rating`
`NOT NULL`.  No `unique=True` column and no `UniqueConstraint` appears, in
particular none on `(book_id, user_id)`. -/

/-- The column sets covered by uniqueness at the storage level, exactly as
declared in models.py: only the primary key `id`. -/
def reviewsUniqueConstraints : List (List String) :=
  [["id"]]

/-- A raw storage-level insert into the `reviews` table, enforcing exactly
the constraints declared in models.py: primary-key uniqueness of `id` and
the foreign key `book_id → books.id`.  (`NOT NULL` is enforced by the row
type itself.)  Returns `none` when a declared constraint rejects the row. -/
def storage_insert_review (db : DB) (r : Review) : Option DB :=
  if db.reviews.any (fun r0 => r0.id == r.id) then none
  else if !(db.books.any (fun b => b.id == r.book_id)) then none
  else some { db with reviews := db.reviews ++ [r] }

/-! ### Concrete fixtures used to instantiate the theorems -/

/-- A registered non-admin user; the stored password is the hash of `"pw"`. -/
def bobUser : User :=
  ⟨1, "bob", "bob@example.com", "bcrypt$pw", Genre.Drama, Role.USER⟩

/-- A registered admin user. -/
def aliceAdmin : User :=
  ⟨2, "alice", "alice@example.com", "bcrypt$pw2", Genre.History, Role.ADMIN⟩

/-- A book that already carries a generated summary. -/
def sampleBook : Book :=
  ⟨1, "Dune", "Herbert", Genre.Science_Fiction, 1965, "old summary"⟩

/-- A book with no reviews and no summary. -/
def plainBook : Book :=
  ⟨2, "Emma", "Austen", Genre.Classic, 1815, ""⟩

/-- A populated store: two users, two books, and reviews with ratings
3, 4, 5 on the first book (the second book has none). -/
def sampleDB : DB :=
  ⟨[bobUser, aliceAdmin], [sampleBook, plainBook],
    [⟨1, 1, 1, "good", 3⟩, ⟨2, 1, 2, "fine", 4⟩, ⟨3, 1, 3, "great", 5⟩]⟩

/-! ## Helper lemmas -/

/-- `get_current_user` rejects only ever with the single 401
`credentials_exception`. -/
theorem get_current_user_error_eq (secret : String) (now : Nat) (db : DB)
    (tok : Token) (e : HttpError)
    (h : get_current_user secret now db tok = Except.error e) :
    e = credentials_exception := by
  unfold get_current_user at h
  split at h
  · exact (Except.error.injEq _ _).mp h.symm
  · split at h
    · exact (Except.error.injEq _ _).mp h.symm
    · split at h
      · exact (Except.error.injEq _ _).mp h.symm
      · exact absurd h (by simp)

/-- A `get_current_user` failure propagates unchanged through
`require_admin`. -/
theorem require_admin_of_error (secret : String) (now : Nat) (db : DB)
    (tok : Token) (e : HttpError)
    (h : get_current_user secret now db tok = Except.error e) :
    require_admin secret now db tok = Except.error e := by
  unfold require_admin
  rw [h]

/-- A resolved non-admin user makes `require_admin` fail with the 403. -/
theorem require_admin_of_non_admin (secret : String) (now : Nat) (db : DB)
    (tok : Token) (u : User)
    (h : get_current_user secret now db tok = Except.ok u)
    (hrole : u.role ≠ Role.ADMIN) :
    require_admin secret now db tok
      = Except.error ⟨403, "Admin access is required"⟩ := by
  unfold require_admin
  rw [h]
  simp [hrole]

/-- A `require_admin` failure makes `generate_summary` return the incoming
database and the same error. -/
theorem generate_summary_of_auth_error (secret : String) (now : Nat) (db : DB)
    (tok : Token) (id : Nat) (resp : String) (e : HttpError)
    (h : require_admin secret now db tok = Except.error e) :
    generate_summary secret now db tok id resp = (db, Except.error e) := by
  unfold generate_summary
  rw [h]

/-- `int()` of a number that is already an integer is that integer. -/
theorem pyInt_intCast (n : Int) : pyInt (n : ℚ) = n := by
  unfold pyInt
  rw [Rat.num_intCast, Rat.den_intCast]
  by_cases h : 0 ≤ n
  · rw [if_pos h]
    simp
  · rw [if_neg h]
    simp

/-- `validate_rating` on an integer input reduces to the range check. -/
theorem validate_rating_intCast (n : Int) :
    validate_rating (n : ℚ)
      = if n < 1 ∨ 5 < n then
          Except.error ⟨400, "Rating must be between 1 and 5"⟩
        else Except.ok n := by
  unfold validate_rating isinstance_int
  rw [pyInt_intCast]
  simp

/-! ## Claims -/

/-- C2, counterexample: a token minted without a ttl argument at
`issued_at = 0` expires at 15 minutes, not at the claimed
`issued_at + 30`. -/
theorem c2_counterexample :
    create_access_token "k" 0 ⟨some 1, some "alice"⟩ none
      = Token.signed ⟨some 1, some "alice", 15⟩ "k" ∧
    create_access_token "k" 0 ⟨some 1, some "alice"⟩ none
      ≠ Token.signed ⟨some 1, some "alice", 30⟩ "k" := by
  decide

/-- C2 (amended): a token issued without a ttl argument expires at
`issued_at + 15` minutes (the hard-coded default of
`create_access_token`), while `login` passes an explicit 30-minute ttl, so
tokens minted at login expire at `issued_at + 30` minutes. -/
theorem c2_token_ttl (secret : String) (now : Nat) (data : TokenData)
    (db : DB) (username password : String) (u : User)
    (hu : db.users.find? (fun v => v.username == username) = some u)
    (hpw : verify_password password u.password = true) :
    create_access_token secret now data none
      = Token.signed ⟨data.user_id, data.sub, now + 15⟩ secret ∧
    login secret now db username password
      = Except.ok
          (Token.signed ⟨some u.id, some u.username, now + 30⟩ secret) := by
  constructor
  · rfl
  · unfold login
    rw [hu]
    simp only [hpw, if_true]
    rfl

/-- C2 witness: a token minted at time 0 without a ttl expires at
`0 + 15`, while logging in as the sample user at time 0 yields a token
expiring at `0 + 30`. -/
theorem c2_witness :
    create_access_token "k" 0 ⟨some 1, some "bob"⟩ none
      = Token.signed ⟨some 1, some "bob", 0 + 15⟩ "k" ∧
    login "k" 0 sampleDB "bob" "pw"
      = Except.ok (Token.signed ⟨some 1, some "bob", 0 + 30⟩ "k") :=
  c2_token_ttl "k" 0 ⟨some 1, some "bob"⟩ sampleDB "bob" "pw" bobUser
    (by decide) (by decide)

/-- C3: on the admin-gated summary-generation operation, identity
resolution runs before the role check: whenever `get_current_user` fails
(invalid, expired or malformed token, missing `user_id` claim, or deleted
user) the request fails with that 401 error — never a 403 — and whenever
it resolves a non-admin user the request fails with the 403. -/
theorem c3_auth_before_role (secret : String) (now : Nat) (db : DB)
    (tok : Token) (id : Nat) (resp : String) :
    (∀ e, get_current_user secret now db tok = Except.error e →
      e.status = 401 ∧
      generate_summary secret now db tok id resp = (db, Except.error e)) ∧
    (∀ u, get_current_user secret now db tok = Except.ok u →
      u.role ≠ Role.ADMIN →
      generate_summary secret now db tok id resp
        = (db, Except.error ⟨403, "Admin access is required"⟩)) := by
  constructor
  · intro e he
    have h401 : e = credentials_exception :=
      get_current_user_error_eq secret now db tok e he
    refine ⟨by rw [h401]; rfl, ?_⟩
    exact generate_summary_of_auth_error secret now db tok id resp e
      (require_admin_of_error secret now db tok e he)
  · intro u hu hrole
    exact generate_summary_of_auth_error secret now db tok id resp _
      (require_admin_of_non_admin secret now db tok u hu hrole)

/-- C3 witness: a malformed token on the admin-gated operation yields the
401, and a valid token of the non-admin sample user yields the 403. -/
theorem c3_witness :
    generate_summary "k" 0 sampleDB (Token.malformed "junk") 1 "text"
      = (sampleDB, Except.error ⟨401, "Could not validate credentials"⟩) ∧
    generate_summary "k" 0 sampleDB (Token.signed ⟨some 1, some "bob", 100⟩ "k") 1 "text"
      = (sampleDB, Except.error ⟨403, "Admin access is required"⟩) := by
  constructor
  · exact ((c3_auth_before_role "k" 0 sampleDB (Token.malformed "junk") 1 "text").1
      ⟨401, "Could not validate credentials"⟩ (by decide)).2
  · exact (c3_auth_before_role "k" 0 sampleDB
      (Token.signed ⟨some 1, some "bob", 100⟩ "k") 1 "text").2
      bobUser (by decide) (by decide)

/-- C4: whenever the gateway response contains the too-short sentinel
`"NONE"`, summary generation leaves the stored state untouched, and (when
the request is authorized and the book exists) fails with the typed 400
insufficient-content error. -/
theorem c4_sentinel_never_persisted (secret : String) (now : Nat) (db : DB)
    (tok : Token) (id : Nat) (resp : String)
    (hs : containsNONE resp = true) :
    (generate_summary secret now db tok id resp).1 = db ∧
    (require_admin secret now db tok = Except.ok () →
      ∀ book, db.books.find? (fun b => b.id == id) = some book →
      (generate_summary secret now db tok id resp).2
        = Except.error
            ⟨400, "Please provide enough book content to generate a summary."⟩) := by
  constructor
  · unfold generate_summary
    cases hra : require_admin secret now db tok with
    | error e => rfl
    | ok u =>
      cases hf : db.books.find? (fun b => b.id == id) with
      | none => rfl
      | some book => simp [hs]
  · intro hra book hb
    unfold generate_summary
    rw [hra, hb]
    simp [hs]

/-- C4 witness: the admin requests a summary for the sample book and the
gateway answers exactly the sentinel; the database is returned unchanged
together with the 400. -/
theorem c4_witness :
    generate_summary "k" 0 sampleDB (Token.signed ⟨some 2, some "alice", 100⟩ "k") 1 "NONE"
      = (sampleDB, Except.error
          ⟨400, "Please provide enough book content to generate a summary."⟩) := by
  have h := c4_sentinel_never_persisted "k" 0 sampleDB
    (Token.signed ⟨some 2, some "alice", 100⟩ "k") 1 "NONE" (by decide)
  exact Prod.ext h.1 (h.2 (by decide) sampleBook (by decide))

/-- C5, counterexample: the ORM validator `validate_rating`, the cited
source of the `InvalidRating` rejection, does not reject the non-integer
3.5 — `int(value)` truncates it to 3 and accepts it; the rejection of 3.5
actually happens in the pydantic schema with a 422 validation error, a
different failure than the 400 `InvalidRating`. -/
theorem c5_counterexample :
    validate_rating (mkRat 7 2) = Except.ok 3 ∧
    submit_rating (mkRat 7 2)
      = Except.error ⟨422, "Input should be a valid integer"⟩ ∧
    (422 : Nat) ≠ 400 := by
  decide

/-- C5 (amended): integer ratings outside [1,5] (such as 0 and 6) are
rejected by `validate_rating` with the 400 rating-range error and the
boundary values 1 and 5 (and every integer between) are accepted; a
non-integer such as 3.5 is rejected earlier, by the pydantic schema with a
422 validation error (`validate_rating` itself would truncate it and
accept); end to end, a submitted rating is accepted exactly when it is an
integer in [1,5]. -/
theorem c5_rating_acceptance (q : ℚ) :
    ((submit_rating q).isOk = true ↔ q.den = 1 ∧ 1 ≤ q.num ∧ q.num ≤ 5) ∧
    (q.den ≠ 1 →
      submit_rating q = Except.error ⟨422, "Input should be a valid integer"⟩) ∧
    (q.den = 1 → (q.num < 1 ∨ 5 < q.num) →
      submit_rating q = Except.error ⟨400, "Rating must be between 1 and 5"⟩) ∧
    (q.den = 1 → 1 ≤ q.num → q.num ≤ 5 →
      submit_rating q = Except.ok q.num) := by
  have hq : ∀ hden : q.den = 1,
      submit_rating q = validate_rating ((q.num : Int) : ℚ) := by
    intro hden
    unfold submit_rating pydantic_int
    rw [if_pos hden]
  have hq2 : ∀ hden : q.den ≠ 1,
      submit_rating q
        = Except.error ⟨422, "Input should be a valid integer"⟩ := by
    intro hden
    unfold submit_rating pydantic_int
    rw [if_neg hden]
  refine ⟨?_, hq2, ?_, ?_⟩
  · constructor
    · intro hok
      by_cases hden : q.den = 1
      · refine ⟨hden, ?_⟩
        rw [hq hden, validate_rating_intCast] at hok
        by_cases hr : q.num < 1 ∨ 5 < q.num
        · rw [if_pos hr] at hok
          exact absurd hok (by simp [Except.isOk, Except.toBool])
        · omega
      · rw [hq2 hden] at hok
        exact absurd hok (by simp [Except.isOk, Except.toBool])
    · rintro ⟨hden, h1, h5⟩
      rw [hq hden, validate_rating_intCast, if_neg (by omega)]
      rfl
  · intro hden hr
    rw [hq hden, validate_rating_intCast, if_pos hr]
  · intro hden h1 h5
    rw [hq hden, validate_rating_intCast, if_neg (by omega)]

/-- C5 witness: 3.5 is rejected with the schema 422 error, the ratings 0 and 6
with the validator 400 error, and the boundary ratings 1 and 5 are accepted. -/
theorem c5_witness :
    submit_rating (mkRat 7 2)
      = Except.error ⟨422, "Input should be a valid integer"⟩ ∧
    submit_rating 0
      = Except.error ⟨400, "Rating must be between 1 and 5"⟩ ∧
    submit_rating 6
      = Except.error ⟨400, "Rating must be between 1 and 5"⟩ ∧
    submit_rating 1 = Except.ok 1 ∧
    submit_rating 5 = Except.ok 5 := by
  refine ⟨(c5_rating_acceptance (mkRat 7 2)).2.1 (by decide),
    (c5_rating_acceptance 0).2.2.1 (by decide) (by decide),
    (c5_rating_acceptance 6).2.2.1 (by decide) (by decide),
    (c5_rating_acceptance 1).2.2.2 (by decide) (by decide) (by decide),
    (c5_rating_acceptance 5).2.2.2 (by decide) (by decide) (by decide)⟩

/-- C6: on an existing book, `get_book_summary` reports the mean of the
ratings of the book rounded (half to even) to two decimal places when at least
one review exists, and the `"NA"` sentinel — never a number, in particular
never 0 — when the book has no reviews. -/
theorem c6_average_rating (db : DB) (book_id : Nat) (book : Book)
    (hb : db.books.find? (fun b => b.id == book_id) = some book) :
    (db.reviews.filter (fun r => r.book_id == book_id) = [] →
      get_book_summary db book_id = Except.ok (book.summary, AvgRating.NA) ∧
      ∀ h : Int,
        get_book_summary db book_id
          ≠ Except.ok (book.summary, AvgRating.num h)) ∧
    (∀ rs, db.reviews.filter (fun r => r.book_id == book_id) = rs → rs ≠ [] →
      get_book_summary db book_id
        = Except.ok (book.summary,
            AvgRating.num
              (pyRound2 (rs.map (fun r => r.rating)).sum rs.length))) := by
  constructor
  · intro hempty
    unfold get_book_summary
    rw [hb, hempty]
    exact ⟨rfl, by simp⟩
  · intro rs hrs hne
    unfold get_book_summary
    rw [hb, hrs]
    simp [List.isEmpty_iff, hne]

/-- C6 witness: in the sample store, the book with ratings 3, 4, 5 reports
an average of 4.00 (400 hundredths) and the book with no reviews reports
the `"NA"` sentinel. -/
theorem c6_witness :
    get_book_summary sampleDB 1
      = Except.ok ("old summary", AvgRating.num 400) ∧
    get_book_summary sampleDB 2 = Except.ok ("", AvgRating.NA) := by
  constructor
  · exact (c6_average_rating sampleDB 1 sampleBook (by decide)).2
      [⟨1, 1, 1, "good", 3⟩, ⟨2, 1, 2, "fine", 4⟩, ⟨3, 1, 3, "great", 5⟩]
      (by decide) (by decide)
  · exact ((c6_average_rating sampleDB 2 plainBook (by decide)).1 (by decide)).1

/-- `splitSemis` never returns the empty list of pieces. -/
theorem splitSemis_ne_nil (l : List Char) : splitSemis l ≠ [] := by
  cases l with
  | nil => simp [splitSemis]
  | cons c rest =>
    unfold splitSemis
    split
    · simp
    · split <;> simp

/-- `splitSemis` yields one piece more than there are separators. -/
theorem splitSemis_length (l : List Char) :
    (splitSemis l).length = l.count ';' + 1 := by
  induction l with
  | nil => rfl
  | cons c rest ih =>
    by_cases h : c = ';'
    · subst h
      simp only [splitSemis, beq_self_eq_true, if_pos, List.length_cons, ih,
        List.count_cons_self]
    · have hb : (c == ';') = false := by simp [h]
      unfold splitSemis
      rw [hb]
      simp only [Bool.false_eq_true, if_false]
      cases hsp : splitSemis rest with
      | nil => exact absurd hsp (splitSemis_ne_nil rest)
      | cons piece pieces =>
        have : (List.count ';' (c :: rest)) = rest.count ';' := by
          rw [List.count_cons_of_ne (by simp [Ne, eq_comm, h])]
        rw [this, ← ih, hsp]
        simp

/-- Stripping is idempotent: a stripped piece has no leading or trailing
whitespace left. -/
theorem pyStrip_idempotent (l : List Char) : pyStrip (pyStrip l) = pyStrip l := by
  unfold pyStrip
  have h1 : List.dropWhile isPySpace
      (List.rdropWhile isPySpace (List.dropWhile isPySpace l))
        = List.rdropWhile isPySpace (List.dropWhile isPySpace l) := by
    rw [List.dropWhile_eq_self_iff]
    intro hl
    obtain ⟨t, ht⟩ :=
      List.rdropWhile_prefix isPySpace (List.dropWhile isPySpace l)
    have hx : 0 < (List.dropWhile isPySpace l).length := by
      rw [← ht, List.length_append]
      omega
    have hget : (List.dropWhile isPySpace l).get ⟨0, hx⟩
        = (List.rdropWhile isPySpace (List.dropWhile isPySpace l)).get ⟨0, hl⟩ :=
      (List.get_of_eq ht.symm ⟨0, hx⟩).trans (List.get_append 0 hl)
    rw [← hget]
    exact List.dropWhile_get_zero_not isPySpace l hx
  rw [h1, List.rdropWhile_idempotent]

/-- C7, counterexample: splitting the gateway response `"A;;B"` returns
the empty title produced between the two delimiters — empty entries are
not excluded. -/
theorem c7_counterexample :
    recommend_books "A;;B" = ["A", "", "B"] ∧
    "" ∈ recommend_books "A;;B" := by
  decide

/-- C7 (amended): `recommend_books` returns the stripped titles obtained
by splitting the whitespace-normalized gateway response on the `;`
delimiter, one title per split piece — every returned title carries no
leading or trailing whitespace, but empty pieces produced by the split are
retained, not excluded. -/
theorem c7_recommend_split (content : String) :
    (recommend_books content).length
      = (collapseWS content.toList).count ';' + 1 ∧
    (∀ t ∈ recommend_books content, pyStrip t.toList = t.toList) := by
  constructor
  · unfold recommend_books
    simp [splitSemis_length]
  · intro t ht
    unfold recommend_books at ht
    simp only [List.map_map, List.mem_map] at ht
    obtain ⟨piece, _, hpt⟩ := ht
    rw [← hpt]
    show pyStrip (List.asString (pyStrip piece)).toList
      = (List.asString (pyStrip piece)).toList
    have hround : (List.asString (pyStrip piece)).toList = pyStrip piece := rfl
    rw [hround, pyStrip_idempotent]

/-- C7 witness: a response with inner whitespace runs and a trailing empty
piece is split into stripped titles, and the title `"B C"` (normalized
from `"B\t C"`) is strip-stable. -/
theorem c7_witness :
    (recommend_books " A ;B\t C; ").length
      = (collapseWS " A ;B\t C; ".toList).count ';' + 1 ∧
    "B C" ∈ recommend_books " A ;B\t C; " ∧
    pyStrip "B C".toList = "B C".toList := by
  refine ⟨(c7_recommend_split " A ;B\t C; ").1, by decide, ?_⟩
  exact (c7_recommend_split " A ;B\t C; ").2 "B C" (by decide)

/-- C1, counterexample: the storage layer accepts a second review row for
the same `(book_id, user_id)` pair — the declared uniqueness constraints
of the `reviews` table cover only the primary key `id`, so no unique
constraint on `(book_id, user_id)` exists to act as a safety net. -/
theorem c1_counterexample :
    storage_insert_review
        ⟨[], [⟨1, "Dune", "Herbert", Genre.Science_Fiction, 1965, ""⟩], []⟩
        ⟨1, 1, 7, "good", 5⟩
      = some ⟨[], [⟨1, "Dune", "Herbert", Genre.Science_Fiction, 1965, ""⟩],
          [⟨1, 1, 7, "good", 5⟩]⟩ ∧
    storage_insert_review
        ⟨[], [⟨1, "Dune", "Herbert", Genre.Science_Fiction, 1965, ""⟩],
          [⟨1, 1, 7, "good", 5⟩]⟩
        ⟨2, 1, 7, "again", 4⟩
      = some ⟨[], [⟨1, "Dune", "Herbert", Genre.Science_Fiction, 1965, ""⟩],
          [⟨1, 1, 7, "good", 5⟩, ⟨2, 1, 7, "again", 4⟩]⟩ ∧
    ["book_id", "user_id"] ∉ reviewsUniqueConstraints := by
  decide

/-- C1 (amended): a second `add_review` call for a `(book, user)` pair
that already has a review fails with the 400 duplicate error and inserts
nothing; the storage layer, however, declares no unique constraint on
`(book_id, user_id)` — a raw insert satisfying the declared constraints
(fresh primary key, existing book) always succeeds, duplicate pair or not,
so the invariant rests solely on the check-then-insert in the handler. -/
theorem c1_duplicate_review (db : DB) (u : User) (id : Nat)
    (review : ReviewCreateSchema) (newId : Nat) (r0 : Review)
    (hb : (db.books.find? (fun b => b.id == id)).isSome = true)
    (hmem : r0 ∈ db.reviews) (hbid : r0.book_id = id)
    (huid : r0.user_id = u.id) :
    add_review db u id review newId
      = (db, Except.error ⟨400, "You can only rate a book once."⟩) ∧
    (∀ r : Review,
      db.reviews.any (fun x => x.id == r.id) = false →
      db.books.any (fun b => b.id == r.book_id) = true →
      storage_insert_review db r
        = some { db with reviews := db.reviews ++ [r] }) := by
  constructor
  · obtain ⟨b, hb2⟩ := Option.isSome_iff_exists.mp hb
    have hdup : (db.reviews.find?
        (fun r => r.book_id == id && r.user_id == u.id)).isSome :=
      List.find?_isSome.mpr ⟨r0, hmem, by simp [hbid, huid]⟩
    obtain ⟨r1, hr1⟩ := Option.isSome_iff_exists.mp hdup
    unfold add_review
    rw [hb2, hr1]
  · intro r h1 h2
    unfold storage_insert_review
    rw [h1, h2]
    rfl

/-- C1 witness: in the sample store, user bob already reviewed book 1, so
his second submission is rejected and the store is unchanged; meanwhile a
raw storage insert of one more review row for the same pair (book 1,
user 1) succeeds. -/
theorem c1_witness :
    add_review sampleDB bobUser 1 ⟨"again", 2⟩ 4
      = (sampleDB, Except.error ⟨400, "You can only rate a book once."⟩) ∧
    storage_insert_review sampleDB ⟨4, 1, 1, "raw duplicate", 2⟩
      = some { sampleDB with
          reviews := sampleDB.reviews ++ [⟨4, 1, 1, "raw duplicate", 2⟩] } := by
  have h := c1_duplicate_review sampleDB bobUser 1 ⟨"again", 2⟩ 4
    ⟨1, 1, 1, "good", 3⟩ (by decide) (by decide) (by decide) (by decide)
  exact ⟨h.1, h.2 ⟨4, 1, 1, "raw duplicate", 2⟩ (by decide) (by decide)⟩

/-- C8, counterexample: a fresh registration succeeds with HTTP status
200 — the FastAPI default, since the route declares no `status_code` — not
with the claimed 201. -/
theorem c8_counterexample :
    (create_user ⟨[], [], []⟩
        ⟨"alice", "pw", "alice@example.com", Genre.Drama, Role.USER⟩ 1).2
      = Except.ok (200, ⟨1, "alice", "alice@example.com", Genre.Drama, Role.USER⟩) ∧
    (200 : Nat) ≠ 201 := by
  decide

/-- C8 (amended): a registration whose username and email are not already
present succeeds with HTTP status 200 (not 201) and returns the
`UserSchema` serialization of the created user, which carries no secret:
its fields are exactly id, username, email, interested_genre and role, and
the response is independent of the submitted password. -/
theorem c8_register_no_secret (db : DB) (uc : UserCreate) (newId : Nat)
    (hfresh : db.users.any
      (fun u => u.username == uc.username || u.email == uc.email) = false) :
    (create_user db uc newId).2
      = Except.ok (200,
          ⟨newId, uc.username, uc.email, uc.interested_genre, uc.role⟩) ∧
    ∀ p2, (create_user db { uc with password := p2 } newId).2
      = (create_user db uc newId).2 := by
  constructor
  · unfold create_user
    rw [if_neg (by simp [hfresh])]
    rfl
  · intro p2
    unfold create_user
    rw [if_neg (by simp [hfresh]), if_neg (by simpa using hfresh)]
    rfl

/-- C8 witness: registering carol against the empty store returns status
200 with her secret-free representation, and the same response no matter
which password she submits. -/
theorem c8_witness :
    (create_user ⟨[], [], []⟩
        ⟨"carol", "pw2", "carol@example.com", Genre.Poetry, Role.USER⟩ 1).2
      = Except.ok (200, ⟨1, "carol", "carol@example.com", Genre.Poetry, Role.USER⟩) ∧
    (create_user ⟨[], [], []⟩
        ⟨"carol", "other", "carol@example.com", Genre.Poetry, Role.USER⟩ 1).2
      = (create_user ⟨[], [], []⟩
          ⟨"carol", "pw2", "carol@example.com", Genre.Poetry, Role.USER⟩ 1).2 := by
  have h := c8_register_no_secret ⟨[], [], []⟩
    ⟨"carol", "pw2", "carol@example.com", Genre.Poetry, Role.USER⟩ 1 (by decide)
  exact ⟨h.1, h.2 "other"⟩

/-- Overwriting the book under `id` in a list that contains it makes the
lookup under `id` return the overwritten row. -/
theorem find?_overwrite (books : List Book) (id : Nat) (updated : Book)
    (hu : updated.id = id) (b0 : Book)
    (hb : books.find? (fun b => b.id == id) = some b0) :
    (books.map (fun b => if b.id == id then updated else b)).find?
        (fun b => b.id == id) = some updated := by
  induction books with
  | nil => simp [List.find?] at hb
  | cons b bs ih =>
    by_cases h : b.id = id
    · have hbeq : (b.id == id) = true := by simp [h]
      rw [List.map_cons, hbeq]
      simp only [if_true]
      exact List.find?_cons_of_pos _ (by simp [hu])
    · have hbeq : (b.id == id) = false := by simp [h]
      have hb2 : bs.find? (fun b => b.id == id) = some b0 := by
        rw [List.find?_cons_of_neg _ (by simp [h])] at hb
        exact hb
      rw [List.map_cons, hbeq]
      simp only [Bool.false_eq_true, if_false]
      rw [List.find?_cons_of_neg _ (by simp [h])]
      exact ih hb2

/-- C9: a successful book update stores the book whose six fields are the
path id and the five request-body values; since the request schema
defaults `summary` to the empty string, an update request that omits
`summary` erases the previously stored summary. -/
theorem c9_update_overwrites (db : DB) (id : Nat) (req : BookCreateRequest)
    (b0 : Book)
    (hb : db.books.find? (fun b => b.id == id) = some b0)
    (hs : req.summary = none) :
    (update_book db id (parseBookCreate req)).2
      = Except.ok ⟨id, req.title, req.author, req.genre, req.year_published, ""⟩ ∧
    (update_book db id (parseBookCreate req)).1.books.find?
        (fun b => b.id == id)
      = some ⟨id, req.title, req.author, req.genre, req.year_published, ""⟩ := by
  have hschema : parseBookCreate req
      = ⟨req.title, req.author, req.genre, req.year_published, ""⟩ := by
    unfold parseBookCreate
    rw [hs]
    rfl
  constructor
  · unfold update_book
    rw [hb, hschema]
  · unfold update_book
    rw [hb, hschema]
    exact find?_overwrite db.books id _ rfl b0 hb

/-- C9 witness: updating the sample book (stored summary
`"old summary"`) with a request that omits `summary` leaves the stored row
with the empty summary. -/
theorem c9_witness :
    (update_book sampleDB 1
        (parseBookCreate ⟨"Dune", "Herbert", Genre.Science_Fiction, 1965, none⟩)).1.books.find?
        (fun b => b.id == 1)
      = some ⟨1, "Dune", "Herbert", Genre.Science_Fiction, 1965, ""⟩ ∧
    sampleBook.summary = "old summary" := by
  refine ⟨?_, rfl⟩
  exact (c9_update_overwrites sampleDB 1
    ⟨"Dune", "Herbert", Genre.Science_Fiction, 1965, none⟩ sampleBook
    (by decide) (by decide)).2

/-- A token signed under the server secret, carrying a `user_id` claim and
not yet expired, resolves to the user the live lookup returns. -/
theorem get_current_user_signed (secret : String) (now : Nat) (db : DB)
    (uid : Nat) (sub : Option String) (exp : Nat) (hexp : ¬exp < now)
    (u : User) (hfind : db.users.find? (fun v => v.id == uid) = some u) :
    get_current_user secret now db (Token.signed ⟨some uid, sub, exp⟩ secret)
      = Except.ok u := by
  have h1 : jwt_decode secret now (Token.signed ⟨some uid, sub, exp⟩ secret)
      = Except.ok ⟨some uid, sub, exp⟩ := by
    show (if secret = secret then
        if exp < now then Except.error ()
        else Except.ok (⟨some uid, sub, exp⟩ : TokenPayload)
      else Except.error ()) = Except.ok (⟨some uid, sub, exp⟩ : TokenPayload)
    rw [if_pos rfl, if_neg hexp]
  have h2 : get_current_user secret now db
      (Token.signed ⟨some uid, sub, exp⟩ secret)
      = match db.users.find? (fun v => v.id == uid) with
        | none => Except.error credentials_exception
        | some u => Except.ok u := by
    unfold get_current_user
    rw [h1]
  rw [h2, hfind]

/-- A resolved admin user passes `require_admin`. -/
theorem require_admin_of_admin (secret : String) (now : Nat) (db : DB)
    (tok : Token) (u : User)
    (h : get_current_user secret now db tok = Except.ok u)
    (hrole : u.role = Role.ADMIN) :
    require_admin secret now db tok = Except.ok () := by
  unfold require_admin
  rw [h]
  simp [hrole]

/-- C10: registration is open and honors a client-supplied admin role —
after an unauthenticated `create_user` call with `role = admin` (fresh
username, email and id), the stored user has the admin role and a token
for that user passes the `require_admin` gate. -/
theorem c10_admin_self_provision (db : DB) (uc : UserCreate) (newId : Nat)
    (secret : String) (now : Nat)
    (hfresh : db.users.any
      (fun u => u.username == uc.username || u.email == uc.email) = false)
    (hid : ∀ u ∈ db.users, ¬(u.id = newId))
    (hrole : uc.role = Role.ADMIN) :
    (create_user db uc newId).1.users.find? (fun v => v.id == newId)
      = some ⟨newId, uc.username, uc.email, get_password_hash uc.password,
          uc.interested_genre, Role.ADMIN⟩ ∧
    require_admin secret now (create_user db uc newId).1
      (create_access_token secret now ⟨some newId, some uc.username⟩ (some 30))
      = Except.ok () := by
  have hdb : (create_user db uc newId).1
      = { db with users := db.users ++
          [⟨newId, uc.username, uc.email, get_password_hash uc.password,
            uc.interested_genre, Role.ADMIN⟩] } := by
    unfold create_user
    rw [if_neg (by simp [hfresh]), hrole]
  have hfind : (db.users ++
      [(⟨newId, uc.username, uc.email, get_password_hash uc.password,
        uc.interested_genre, Role.ADMIN⟩ : User)]).find? (fun v => v.id == newId)
      = some ⟨newId, uc.username, uc.email, get_password_hash uc.password,
          uc.interested_genre, Role.ADMIN⟩ := by
    rw [List.find?_append]
    have hnone : db.users.find? (fun v => v.id == newId) = none := by
      rw [List.find?_eq_none]
      intro u hu
      simp [hid u hu]
    rw [hnone]
    simp [List.find?]
  constructor
  · rw [hdb]
    exact hfind
  · have hTok : create_access_token secret now
        ⟨some newId, some uc.username⟩ (some 30)
        = Token.signed ⟨some newId, some uc.username, now + 30⟩ secret := rfl
    rw [hTok, hdb]
    exact require_admin_of_admin secret now _ _ _
      (get_current_user_signed secret now _ newId (some uc.username) (now + 30)
        (by omega) _ hfind) rfl

/-- C10 witness: an unauthenticated registration of eve with
`role = admin` against the empty store yields a stored admin user who
passes the admin gate. -/
theorem c10_witness :
    (create_user ⟨[], [], []⟩
        ⟨"eve", "pw", "eve@example.com", Genre.Crime, Role.ADMIN⟩ 1).1.users.find?
        (fun v => v.id == 1)
      = some ⟨1, "eve", "eve@example.com", get_password_hash "pw",
          Genre.Crime, Role.ADMIN⟩ ∧
    require_admin "k" 0 (create_user ⟨[], [], []⟩
        ⟨"eve", "pw", "eve@example.com", Genre.Crime, Role.ADMIN⟩ 1).1
      (create_access_token "k" 0 ⟨some 1, some "eve"⟩ (some 30))
      = Except.ok () :=
  c10_admin_self_provision ⟨[], [], []⟩
    ⟨"eve", "pw", "eve@example.com", Genre.Crime, Role.ADMIN⟩ 1 "k" 0
    (by decide) (by decide) (by decide)

end BookAPI
